import Mathlib

/-!
Shallow embedding of the SOL-audit bounty programs.

Two on-chain variants are embedded:

* the native processor (`src/audit_bounty/src/processor.rs` with the state
  types of `state.rs` and the errors of `error.rs`), modelled by the
  `process_*` functions below over an explicit `World` of keyed accounts;
* the Anchor program (`src/audit-bounty-anchor/programs/audit-bounty/src`),
  modelled by `create_bounty` / `submit_report` over `AWorld` / `ABounty`.

Host facilities are modelled at the interface the spec fixes for them:
`find_program_address` becomes the injective constructors of `Addr`
(deterministic, collision-resistant derivation), the system-program
transfer / create_account primitives become arithmetic on the `lamports`
map guarded by the balance and freshness checks the runtime performs, the
clock sysvar becomes an explicit `now` argument, and rent becomes the
`rentMin` field of the world.  Accounts whose data deserializes as a
program record are modelled by the partial maps `bounties`, `submissions`
and `votes`; a program-owned account outside the map stands for one whose
bytes do not parse (the runtime's write-ownership rule makes every
instruction that would commit data to a foreign account fail atomically,
so such accounts never carry program records).  u64 counters that the
program increments without a guard are reduced modulo 2^64, matching the
wrapping arithmetic of release builds; counters the program only
decrements under an explicit positivity guard stay in `Nat`.
-/

namespace AuditBounty

/-- Account addresses.  Base wallets are `user n`; the system program id is
`system`; the remaining constructors are the program-derived addresses
(`find_program_address`) for the bounty record (seeded by creator and either
a custom seed or the clock bytes), the vault, a submission record and a vote
record.  Constructor injectivity models the collision resistance the spec
assumes of `derive_address`. -/
inductive Addr where
  | user : Nat → Addr
  | system : Addr
  | bountyCustom : Addr → Nat → Addr
  | bountyTime : Addr → Int → Addr
  | vaultOf : Addr → Addr
  | submissionOf : Addr → Addr → String → Addr
  | voteOf : Addr → Addr → Addr
deriving DecidableEq, Repr

/-- `BountyStatus` of the native `state.rs`. -/
inductive BountyStatus where
  | Open | Approved | Claimed | Cancelled
deriving DecidableEq, Repr

/-- `BountyAccount` of the native `state.rs`. -/
structure BountyAccount where
  creator : Addr
  hunter : Option Addr
  amount : Nat
  deadline : Int
  status : BountyStatus
  initialized : Bool
  winners_count : Nat
  current_winners : Nat
deriving DecidableEq, Repr

/-- `SubmissionStatus` of the native `state.rs`. -/
inductive SubmissionStatus where
  | Pending | Approved | Rejected | Disputed
deriving DecidableEq, Repr

/-- `Submission` of the native `state.rs`. -/
structure Submission where
  id : String
  bounty_id : Addr
  auditor : Addr
  description : String
  ipfs_hash : String
  severity : Nat
  upvotes : Nat
  downvotes : Nat
  status : SubmissionStatus
  payout_amount : Option Nat
  is_winner : Bool
  created_at : Int
deriving DecidableEq, Repr

/-- `VoteType` of the native `state.rs`. -/
inductive VoteType where
  | None | Up | Down
deriving DecidableEq, Repr

/-- `Vote` of the native `state.rs`. -/
structure Vote where
  voter : Addr
  submission : Addr
  bounty : Addr
  vote_type : VoteType
  timestamp : Int
deriving DecidableEq, Repr

/-- The native program's `BountyError` variants that the embedded
instructions can raise. -/
inductive BountyErr where
  | InvalidBountyAmount | InvalidDeadline | BountyAlreadyInitialized
  | UnauthorizedCreator | UnauthorizedHunter | BountyNotOpen | BountyNotApproved
  | DeadlineNotPassed | SubmissionAlreadyApproved
deriving DecidableEq, Repr

/-- Program errors: the native `ProgramError` variants used by
`processor.rs` (with `Custom` wrapping `BountyErr`), the runtime errors of
the host primitives, and the Anchor variant's error codes (prefixed by
`Anchor`, plus `ReportLinkTooLong` and `InvalidEscrowAccount` which the
Anchor program declares). -/
inductive ProgErr where
  | Custom : BountyErr → ProgErr
  | InvalidAccountData | IncorrectProgramId | UninitializedAccount
  | InsufficientFunds | InvalidArgument | MissingRequiredSignature
  | BorshIoError | AccountAlreadyInUse
  | AnchorBountyNotOpen | AnchorAuditorAlreadyAssigned
  | ReportLinkTooLong | InvalidEscrowAccount
deriving DecidableEq, Repr

/-- 2^64, the modulus of the u64 counters. -/
def U64MOD : Nat := 18446744073709551616

/-- Pointwise update of a map keyed by addresses. -/
def updF {β : Type} (f : Addr → β) (a : Addr) (v : β) : Addr → β :=
  fun x => if x = a then v else f x

/-- Lookup in the submission store (an association list keyed by account
address). -/
def findSub : List (Addr × Submission) → Addr → Option Submission
  | [], _ => none
  | p :: rest, a => if p.1 = a then some p.2 else findSub rest a

/-- Write-through update of the submission store: the new record replaces
any record previously held at the same address. -/
def setSub (l : List (Addr × Submission)) (a : Addr) (s : Submission) :
    List (Addr × Submission) :=
  (a, s) :: l.filter (fun p => decide (p.1 ≠ a))

/-- The lamports map after an atomic transfer of `amt` from `src` to `dst`
(the callers perform the balance check first, as the runtime does). -/
def xfer (l : Addr → Nat) (src dst : Addr) (amt : Nat) : Addr → Nat :=
  let l1 := updF l src (l src - amt)
  updF l1 dst (l1 dst + amt)

/-- The on-chain world: which accounts the program owns, the parseable
program records they hold, every account's lamport balance and data size,
and the host's rent schedule (`Rent::minimum_balance` as a function of the
account size, with the record sizes the program allocates).

`dataLen` is the size of an account's data buffer.  Serialization into an
account is bounded by that buffer (Borsh's `write_all` into the fixed
slice fails on overflow).  The embedding maintains and consults `dataLen`
exactly where that bound can bind: the submission record, whose three
strings make its Borsh payload unbounded.  Bounty and vote records have a
constant-bounded Borsh size that always fits the allocations the program
makes for them, so their writes never hit the bound. -/
structure World where
  progOwned : Addr → Bool
  bounties : Addr → Option BountyAccount
  submissions : List (Addr × Submission)
  votes : Addr → Option Vote
  lamports : Addr → Nat
  dataLen : Addr → Nat
  rentMin : Nat → Nat
  szBounty : Nat
  szVote : Nat

/-- The state an instruction leaves behind: its new world on success, the
unchanged pre-state on any error (the runtime rolls a failed transaction
back atomically). -/
def stateOf (r : Except ProgErr World) (w : World) : World :=
  match r with
  | .ok w' => w'
  | .error _ => w

/-- Whether an instruction succeeded. -/
def isOkE (r : Except ProgErr World) : Bool :=
  match r with
  | .ok _ => true
  | .error _ => false

/-- `process_create_bounty` (processor.rs lines 76-276).  Order of checks
as in the source: creator signature, system-program id, `amount == 0`,
`deadline <= now`, bounty PDA derivation and match, bounty-account creation
(or the already-initialized guard on an existing one), vault PDA derivation
and match, vault creation funded with `amount` (or a system transfer of
`amount` into an existing vault), then the record write. -/
def process_create_bounty (w : World) (creator bountyAcc vaultAcc sysProg : Addr)
    (amount : Nat) (deadline : Int) (custom_seed : Option Nat)
    (winners_count : Option Nat) (creatorSigner : Bool) (now : Int) :
    Except ProgErr World :=
  if !creatorSigner then .error (.Custom .UnauthorizedCreator)
  else if sysProg ≠ Addr.system then .error .InvalidAccountData
  else if amount = 0 then .error (.Custom .InvalidBountyAmount)
  else if deadline ≤ now then .error (.Custom .InvalidDeadline)
  else
    let bountyKey :=
      match custom_seed with
      | some s => Addr.bountyCustom creator s
      | none => Addr.bountyTime creator now
    if bountyKey ≠ bountyAcc then .error .InvalidAccountData
    else
      let step1 : Except ProgErr World :=
        if w.progOwned bountyAcc then
          match w.bounties bountyAcc with
          | none => .error .BorshIoError
          | some bd =>
            if bd.initialized then .error (.Custom .BountyAlreadyInitialized)
            else .ok w
        else
          let rent := w.rentMin w.szBounty
          if w.lamports bountyAcc ≠ 0 then .error .AccountAlreadyInUse
          else if w.lamports creator < rent then .error .InsufficientFunds
          else .ok { w with lamports := xfer w.lamports creator bountyAcc rent,
                            progOwned := updF w.progOwned bountyAcc true }
      match step1 with
      | .error e => .error e
      | .ok w1 =>
        if Addr.vaultOf bountyAcc ≠ vaultAcc then .error .InvalidAccountData
        else
          let step2 : Except ProgErr World :=
            if w1.progOwned vaultAcc then
              if w1.lamports creator < amount then .error .InsufficientFunds
              else .ok { w1 with lamports := xfer w1.lamports creator vaultAcc amount }
            else
              if w1.lamports vaultAcc ≠ 0 then .error .AccountAlreadyInUse
              else if w1.lamports creator < amount then .error .InsufficientFunds
              else .ok { w1 with
                           lamports := xfer w1.lamports creator vaultAcc amount,
                           progOwned := updF w1.progOwned vaultAcc true }
          match step2 with
          | .error e => .error e
          | .ok w2 =>
            .ok { w2 with bounties := updF w2.bounties bountyAcc (some
                    { creator := creator, hunter := none, amount := amount,
                      deadline := deadline, status := .Open, initialized := true,
                      winners_count := winners_count.getD 1, current_winners := 0 }) }

/-- `process_submit_work` (processor.rs lines 278-316): validation only,
the submitted URL is logged and discarded, no account is written. -/
def process_submit_work (w : World) (hunter bountyAcc : Addr)
    (submission_url : String) (hunterSigner : Bool) : Except ProgErr World :=
  if !hunterSigner then .error (.Custom .UnauthorizedHunter)
  else if !(w.progOwned bountyAcc) then .error .IncorrectProgramId
  else
    match w.bounties bountyAcc with
    | none => .error .BorshIoError
    | some bd =>
      if !bd.initialized then .error .UninitializedAccount
      else if bd.status ≠ .Open then .error (.Custom .BountyNotOpen)
      else
        let _ := (hunter, submission_url)
        .ok w

/-- `process_approve_submission` (processor.rs lines 318-422). -/
def process_approve_submission (w : World)
    (creator bountyAcc hunterAcc submissionAcc hunterArg : Addr)
    (submission_id : String) (creatorSigner : Bool) : Except ProgErr World :=
  if !creatorSigner then .error (.Custom .UnauthorizedCreator)
  else if !(w.progOwned bountyAcc) then .error .IncorrectProgramId
  else if hunterArg ≠ hunterAcc then .error .InvalidArgument
  else if Addr.submissionOf bountyAcc hunterAcc submission_id ≠ submissionAcc then
    .error .InvalidAccountData
  else if !(w.progOwned submissionAcc) then .error .InvalidAccountData
  else
    match w.bounties bountyAcc with
    | none => .error .InvalidAccountData
    | some bd =>
      if !bd.initialized then .error .UninitializedAccount
      else if bd.status ≠ .Open then .error (.Custom .BountyNotOpen)
      else if bd.creator ≠ creator then .error (.Custom .UnauthorizedCreator)
      else .ok { w with bounties := updF w.bounties bountyAcc (some
                   { bd with status := .Approved, hunter := some hunterArg,
                             initialized := true }) }

/-- `process_claim_bounty` (processor.rs lines 424-517). -/
def process_claim_bounty (w : World) (hunter bountyAcc vaultAcc sysProg : Addr)
    (hunterSigner : Bool) : Except ProgErr World :=
  if !hunterSigner then .error (.Custom .UnauthorizedHunter)
  else if !(w.progOwned bountyAcc) then .error .IncorrectProgramId
  else if !(w.progOwned vaultAcc) then .error .IncorrectProgramId
  else if sysProg ≠ Addr.system then .error .InvalidAccountData
  else
    match w.bounties bountyAcc with
    | none => .error .BorshIoError
    | some bd =>
      if !bd.initialized then .error .UninitializedAccount
      else if bd.status ≠ .Approved then .error (.Custom .BountyNotApproved)
      else
        match bd.hunter with
        | none => .error (.Custom .UnauthorizedHunter)
        | some h =>
          if h ≠ hunter then .error (.Custom .UnauthorizedHunter)
          else
            let amount := bd.amount
            if Addr.vaultOf bountyAcc ≠ vaultAcc then .error .InvalidAccountData
            else if w.lamports vaultAcc < amount then .error .InsufficientFunds
            else .ok { w with
                         lamports := xfer w.lamports vaultAcc hunter amount,
                         bounties := updF w.bounties bountyAcc (some
                           { bd with status := .Claimed }) }

/-- `process_cancel_bounty` (processor.rs lines 519-617): the time-boxed
cancel, refusing with `DeadlineNotPassed` while `now <= deadline`. -/
def process_cancel_bounty (w : World) (creator bountyAcc vaultAcc sysProg : Addr)
    (creatorSigner : Bool) (now : Int) : Except ProgErr World :=
  if !creatorSigner then .error (.Custom .UnauthorizedCreator)
  else if !(w.progOwned bountyAcc) then .error .IncorrectProgramId
  else if !(w.progOwned vaultAcc) then .error .IncorrectProgramId
  else if sysProg ≠ Addr.system then .error .InvalidAccountData
  else
    match w.bounties bountyAcc with
    | none => .error .BorshIoError
    | some bd =>
      if !bd.initialized then .error .UninitializedAccount
      else if bd.status ≠ .Open then .error (.Custom .BountyNotOpen)
      else if bd.creator ≠ creator then .error (.Custom .UnauthorizedCreator)
      else if now ≤ bd.deadline then .error (.Custom .DeadlineNotPassed)
      else if Addr.vaultOf bountyAcc ≠ vaultAcc then .error .InvalidAccountData
      else if w.lamports vaultAcc < bd.amount then .error .InsufficientFunds
      else .ok { w with
                   lamports := xfer w.lamports vaultAcc creator bd.amount,
                   bounties := updF w.bounties bountyAcc (some
                     { bd with status := .Cancelled }) }

/-- `process_cancel_bounty_emergency` (processor.rs lines 619-711): the
same refund path with the deadline check waived. -/
def process_cancel_bounty_emergency (w : World)
    (creator bountyAcc vaultAcc sysProg : Addr) (creatorSigner : Bool) :
    Except ProgErr World :=
  if !creatorSigner then .error (.Custom .UnauthorizedCreator)
  else if !(w.progOwned bountyAcc) then .error .IncorrectProgramId
  else if !(w.progOwned vaultAcc) then .error .IncorrectProgramId
  else if sysProg ≠ Addr.system then .error .InvalidAccountData
  else
    match w.bounties bountyAcc with
    | none => .error .BorshIoError
    | some bd =>
      if !bd.initialized then .error .UninitializedAccount
      else if bd.status ≠ .Open then .error (.Custom .BountyNotOpen)
      else if bd.creator ≠ creator then .error (.Custom .UnauthorizedCreator)
      else if Addr.vaultOf bountyAcc ≠ vaultAcc then .error .InvalidAccountData
      else if w.lamports vaultAcc < bd.amount then .error .InsufficientFunds
      else .ok { w with
                   lamports := xfer w.lamports vaultAcc creator bd.amount,
                   bounties := updF w.bounties bountyAcc (some
                     { bd with status := .Cancelled }) }

/-- `std::mem::size_of::<Submission>()`: three 24-byte `String` headers,
two 32-byte pubkeys, `u8 + u64 + u64`, a one-byte enum, a 16-byte
`Option<u64>`, a bool and an `i64`, padded to 8-byte alignment — 184
bytes.  This is both the rent size and the data size of the submission
account the program creates. -/
def submissionMemSize : Nat := 184

/-- The Borsh-serialized size of a `Submission` record: a 4-byte length
prefix plus the bytes of each string, 32 per pubkey, 1 for each of
severity, status and is_winner, 8 per u64/i64, and 1 or 9 for the payout
option. -/
def submissionBorshSize (s : Submission) : Nat :=
  (4 + s.id.utf8ByteSize) + 32 + 32 + (4 + s.description.utf8ByteSize) +
  (4 + s.ipfs_hash.utf8ByteSize) + 1 + 8 + 8 + 1 +
  (match s.payout_amount with | none => 1 | some _ => 9) + 1 + 8

/-- `process_record_submission` (processor.rs lines 713-851).  The source
checks severity, then refuses an already-initialized record (a parse
failure counts as uninitialized), creates the submission PDA with exactly
`size_of::<Submission>()` bytes when the account does not exist yet
(`invoke_signed` with the derived seeds fails the runtime's signature
check when the supplied address is not the derived one), and writes the
record.  No explicit length bound is applied to `description` or
`ipfs_hash`; the only bound on the write is the account's data buffer —
`serialize` at line 846 writes into the fixed slice and fails (aborting
the instruction, `BorshIoError`) when the record does not fit.  An
account that already exists (`owner == program_id`) is written through
whatever size it was created with: that path re-checks neither the
derived address nor the size. -/
def process_record_submission (w : World)
    (hunter bountyAcc submissionAcc sysProg : Addr) (submission_id : String)
    (severity : Nat) (description ipfs_hash : String) (hunterSigner : Bool)
    (now : Int) : Except ProgErr World :=
  if !hunterSigner then .error (.Custom .UnauthorizedHunter)
  else if !(w.progOwned bountyAcc) then .error .IncorrectProgramId
  else if sysProg ≠ Addr.system then .error .InvalidAccountData
  else
    match w.bounties bountyAcc with
    | none => .error .BorshIoError
    | some bd =>
      if !bd.initialized then .error .UninitializedAccount
      else if bd.status ≠ .Open then .error (.Custom .BountyNotOpen)
      else if severity < 1 ∨ severity > 5 then .error .InvalidArgument
      else if w.progOwned submissionAcc ∧
              (findSub w.submissions submissionAcc).elim false (fun sd => sd.id ≠ "") then
        .error (.Custom .SubmissionAlreadyApproved)
      else
        let sub : Submission :=
          { id := submission_id, bounty_id := bountyAcc, auditor := hunter,
            description := description, ipfs_hash := ipfs_hash,
            severity := severity, upvotes := 0, downvotes := 0,
            status := .Pending, payout_amount := none, is_winner := false,
            created_at := now }
        let step1 : Except ProgErr World :=
          if w.progOwned submissionAcc then .ok w
          else if Addr.submissionOf bountyAcc hunter submission_id ≠ submissionAcc then
            .error .MissingRequiredSignature
          else
            let rent := w.rentMin submissionMemSize
            if w.lamports submissionAcc ≠ 0 then .error .AccountAlreadyInUse
            else if w.lamports hunter < rent then .error .InsufficientFunds
            else .ok { w with
                         lamports := xfer w.lamports hunter submissionAcc rent,
                         progOwned := updF w.progOwned submissionAcc true,
                         dataLen := updF w.dataLen submissionAcc submissionMemSize }
        match step1 with
        | .error e => .error e
        | .ok w1 =>
          if w1.dataLen submissionAcc < submissionBorshSize sub then
            .error .BorshIoError
          else .ok { w1 with
                       submissions := setSub w1.submissions submissionAcc sub }

/-- The retract half of the counter update of `process_vote_on_submission`
(processor.rs lines 975-987): decrement the counter matching the prior
vote, floored at zero. -/
def retractVote (sd : Submission) (prior : VoteType) : Submission :=
  match prior with
  | .Up => if sd.upvotes > 0 then { sd with upvotes := sd.upvotes - 1 } else sd
  | .Down => if sd.downvotes > 0 then { sd with downvotes := sd.downvotes - 1 } else sd
  | .None => sd

/-- The apply half of the counter update of `process_vote_on_submission`
(processor.rs lines 989-994): increment the counter matching the new vote
(u64, wrapping). -/
def applyVote (sd : Submission) (next : VoteType) : Submission :=
  match next with
  | .Up => { sd with upvotes := (sd.upvotes + 1) % U64MOD }
  | .Down => { sd with downvotes := (sd.downvotes + 1) % U64MOD }
  | .None => sd

/-- `process_vote_on_submission` (processor.rs lines 853-1006).  A first
vote creates the vote PDA (paying rent) and both counters see no retract;
a later call through the same vote account retracts the stored vote's
counter (floored at zero) before applying the new one and overwrites the
stored vote type and timestamp. -/
def process_vote_on_submission (w : World)
    (voter bountyAcc submissionAcc voteAcc sysProg : Addr)
    (submission_id : String) (is_upvote : Bool) (voterSigner : Bool)
    (now : Int) : Except ProgErr World :=
  if !voterSigner then .error .MissingRequiredSignature
  else if sysProg ≠ Addr.system then .error .InvalidAccountData
  else
    match w.bounties bountyAcc with
    | none => .error .BorshIoError
    | some bd =>
      if !bd.initialized then .error .UninitializedAccount
      else if bd.status ≠ .Open then .error (.Custom .BountyNotOpen)
      else if !(w.progOwned submissionAcc) then .error .InvalidAccountData
      else
        match findSub w.submissions submissionAcc with
        | none => .error .BorshIoError
        | some sd =>
          if sd.id = "" then .error .UninitializedAccount
          else if sd.id ≠ submission_id then .error .InvalidArgument
          else
            let newVote : VoteType := if is_upvote then .Up else .Down
            let step1 : Except ProgErr (VoteType × World) :=
              if w.progOwned voteAcc then
                match w.votes voteAcc with
                | none => .error .BorshIoError
                | some vd =>
                  .ok (vd.vote_type,
                       { w with votes := updF w.votes voteAcc (some
                           { vd with vote_type := newVote, timestamp := now }) })
              else if Addr.voteOf submissionAcc voter ≠ voteAcc then
                .error .MissingRequiredSignature
              else
                let rent := w.rentMin w.szVote
                if w.lamports voteAcc ≠ 0 then .error .AccountAlreadyInUse
                else if w.lamports voter < rent then .error .InsufficientFunds
                else
                  .ok (VoteType.None,
                       { w with
                           lamports := xfer w.lamports voter voteAcc rent,
                           progOwned := updF w.progOwned voteAcc true,
                           votes := updF w.votes voteAcc (some
                             { voter := voter, submission := submissionAcc,
                               bounty := bountyAcc, vote_type := newVote,
                               timestamp := now }) })
            match step1 with
            | .error e => .error e
            | .ok (existing, w1) =>
              let sd2 := applyVote (retractVote sd existing) newVote
              .ok { w1 with submissions := setSub w1.submissions submissionAcc sd2 }

/-- `process_select_winner` (processor.rs lines 1008-1098).  Note two
facts of the source this embedding preserves: the submission's
`bounty_id` is never compared against the supplied bounty account, and
the per-winner cap `amount / winners_count` is evaluated only after the
`current_winners >= winners_count` guard. -/
def process_select_winner (w : World) (creator bountyAcc submissionAcc : Addr)
    (submission_id : String) (payout_amount : Nat) (creatorSigner : Bool) :
    Except ProgErr World :=
  if !creatorSigner then .error (.Custom .UnauthorizedCreator)
  else
    match w.bounties bountyAcc with
    | none => .error .BorshIoError
    | some bd =>
      if !bd.initialized then .error .UninitializedAccount
      else if bd.status ≠ .Open then .error (.Custom .BountyNotOpen)
      else if bd.creator ≠ creator then .error (.Custom .UnauthorizedCreator)
      else if bd.winners_count ≤ bd.current_winners then .error .InvalidArgument
      else if !(w.progOwned submissionAcc) then .error .InvalidAccountData
      else
        match findSub w.submissions submissionAcc with
        | none => .error .BorshIoError
        | some sd =>
          if sd.id = "" then .error .UninitializedAccount
          else if sd.id ≠ submission_id then .error .InvalidArgument
          else if sd.is_winner then .error .InvalidArgument
          else
            let maxPerWinner := bd.amount / bd.winners_count
            if maxPerWinner < payout_amount then .error .InvalidArgument
            else
              let cw := bd.current_winners + 1
              .ok { w with
                      submissions := setSub w.submissions submissionAcc
                        { sd with is_winner := true, status := .Approved,
                                  payout_amount := some payout_amount },
                      bounties := updF w.bounties bountyAcc (some
                        { bd with current_winners := cw,
                                  status := if bd.winners_count ≤ cw then .Approved
                                            else bd.status }) }

/-- `process_finalize_and_distribute` (processor.rs lines 1100-1187).  The
source checks the signer, the system program, initialization and the
creator, then requires `now > deadline` or `current_winners >=
winners_count`, verifies the vault address, refuses an empty vault, and
drains the whole vault balance to the creator, setting status `Claimed`;
it never inspects the current status. -/
def process_finalize_and_distribute (w : World)
    (creator bountyAcc vaultAcc sysProg : Addr) (creatorSigner : Bool)
    (now : Int) : Except ProgErr World :=
  if !creatorSigner then .error (.Custom .UnauthorizedCreator)
  else if sysProg ≠ Addr.system then .error .InvalidAccountData
  else
    match w.bounties bountyAcc with
    | none => .error .BorshIoError
    | some bd =>
      if !bd.initialized then .error .UninitializedAccount
      else if bd.creator ≠ creator then .error (.Custom .UnauthorizedCreator)
      else if ¬(bd.deadline < now) ∧ ¬(bd.winners_count ≤ bd.current_winners) then
        .error .InvalidArgument
      else if Addr.vaultOf bountyAcc ≠ vaultAcc then .error .InvalidAccountData
      else
        let vaultBalance := w.lamports vaultAcc
        if vaultBalance = 0 then .error .InsufficientFunds
        else .ok { w with
                     lamports := xfer w.lamports vaultAcc creator vaultBalance,
                     bounties := updF w.bounties bountyAcc (some
                       { bd with status := .Claimed }) }

/-- `BountyStatus` of the Anchor variant (lib.rs). -/
inductive ABountyStatus where
  | Open | Submitted | Approved | Cancelled
deriving DecidableEq, Repr

/-- The `Bounty` account of the Anchor variant (lib.rs lines 23-49). -/
structure ABounty where
  creator : Addr
  auditor : Option Addr
  amount : Nat
  status : ABountyStatus
  report_uri : Option String
  created_at : Int
  nonce : Nat
  bump : Nat
deriving DecidableEq, Repr

/-- `Bounty::MAX_REPORT_URI_SIZE` of the Anchor variant. -/
def MAX_REPORT_URI_SIZE : Nat := 100

/-- The slice of the Anchor world one `create_bounty` call touches: the
bounty PDA for (creator, nonce) and the creator/escrow balances, with the
rent the `init` constraint charges for the bounty account. -/
structure AWorld where
  creator : Addr
  bounty : Option ABounty
  creatorLamports : Nat
  escrowLamports : Nat
  rentBounty : Nat
deriving DecidableEq, Repr

/-- Anchor `create_bounty` (lib.rs lines 85-125 and
instructions/create_bounty.rs).  Anchor's `init` constraint refuses an
existing account and charges the payer rent; the handler then transfers
`amount` from creator to escrow and initializes the record.  The handler
has no deadline argument and performs no validation of `amount`. -/
def create_bounty (w : AWorld) (amount : Nat) (nonce : Nat) (now : Int) :
    Except ProgErr AWorld :=
  match w.bounty with
  | some _ => .error .AccountAlreadyInUse
  | none =>
    if w.creatorLamports < w.rentBounty then .error .InsufficientFunds
    else if w.creatorLamports - w.rentBounty < amount then .error .InsufficientFunds
    else .ok { w with
                 bounty := some
                   { creator := w.creator, auditor := none, amount := amount,
                     status := .Open, report_uri := none, created_at := now,
                     nonce := nonce, bump := 0 },
                 creatorLamports := w.creatorLamports - w.rentBounty - amount,
                 escrowLamports := w.escrowLamports + amount }

/-- Anchor `submit_report` (instructions/submit_report.rs).  The account
constraints require an Open bounty with no auditor assigned; the handler
rejects a report whose UTF-8 byte length exceeds
`Bounty::MAX_REPORT_URI_SIZE` with `ReportLinkTooLong` before writing
anything, and otherwise stores the auditor and the report reference and
moves the bounty to Submitted. -/
def submit_report (b : ABounty) (auditor : Addr) (report_uri : String) :
    Except ProgErr ABounty :=
  if b.status ≠ .Open then .error .AnchorBountyNotOpen
  else if b.auditor.isSome then .error .AnchorAuditorAlreadyAssigned
  else if report_uri.utf8ByteSize > MAX_REPORT_URI_SIZE then .error .ReportLinkTooLong
  else .ok { b with auditor := some auditor, report_uri := some report_uri,
                    status := .Submitted }

/-- One successful instruction of the native program, with arbitrary
caller-chosen accounts, arguments, signer flags and clock value. -/
inductive Step : World → World → Prop where
  | create : ∀ (w w' : World) (c ba va sp : Addr) (amount : Nat) (deadline : Int)
      (cs : Option Nat) (wc : Option Nat) (sg : Bool) (now : Int),
      process_create_bounty w c ba va sp amount deadline cs wc sg now = .ok w' →
      Step w w'
  | submitWork : ∀ (w w' : World) (h ba : Addr) (url : String) (sg : Bool),
      process_submit_work w h ba url sg = .ok w' → Step w w'
  | approve : ∀ (w w' : World) (c ba ha sa harg : Addr) (sid : String) (sg : Bool),
      process_approve_submission w c ba ha sa harg sid sg = .ok w' → Step w w'
  | claim : ∀ (w w' : World) (h ba va sp : Addr) (sg : Bool),
      process_claim_bounty w h ba va sp sg = .ok w' → Step w w'
  | cancel : ∀ (w w' : World) (c ba va sp : Addr) (sg : Bool) (now : Int),
      process_cancel_bounty w c ba va sp sg now = .ok w' → Step w w'
  | cancelEmergency : ∀ (w w' : World) (c ba va sp : Addr) (sg : Bool),
      process_cancel_bounty_emergency w c ba va sp sg = .ok w' → Step w w'
  | record : ∀ (w w' : World) (h ba sa sp : Addr) (sid : String) (sev : Nat)
      (descr ipfs : String) (sg : Bool) (now : Int),
      process_record_submission w h ba sa sp sid sev descr ipfs sg now = .ok w' →
      Step w w'
  | vote : ∀ (w w' : World) (v ba sa va sp : Addr) (sid : String) (up sg : Bool)
      (now : Int),
      process_vote_on_submission w v ba sa va sp sid up sg now = .ok w' → Step w w'
  | select : ∀ (w w' : World) (c ba sa : Addr) (sid : String) (payout : Nat)
      (sg : Bool),
      process_select_winner w c ba sa sid payout sg = .ok w' → Step w w'
  | finalize : ∀ (w w' : World) (c ba va sp : Addr) (sg : Bool) (now : Int),
      process_finalize_and_distribute w c ba va sp sg now = .ok w' → Step w w'

/-- Worlds reachable from `w` through successful instructions. -/
def Reachable (w w' : World) : Prop := Relation.ReflTransGen Step w w'

/-- The total payout recorded on winner submissions that reference the
bounty `ba` through their `bounty_id` back-reference. -/
def winnerPayoutSum (l : List (Addr × Submission)) (ba : Addr) : Nat :=
  (l.map (fun p =>
    if p.2.bounty_id = ba ∧ p.2.is_winner then (p.2.payout_amount).getD 0 else 0)).sum

theorem updF_same {β : Type} (f : Addr → β) (a : Addr) (v : β) :
    updF f a v a = v := by
  simp [updF]

theorem updF_other {β : Type} (f : Addr → β) (a b : Addr) (v : β) (h : b ≠ a) :
    updF f a v b = f b := by
  simp [updF, h]

theorem findSub_setSub_same (l : List (Addr × Submission)) (a : Addr)
    (s : Submission) : findSub (setSub l a s) a = some s := by
  simp [findSub, setSub]

theorem voteOf_ne_submission (a v : Addr) : Addr.voteOf a v ≠ a := by
  intro h
  have hs := congrArg sizeOf h
  simp at hs
  omega

theorem ok_of_isOkE {r : Except ProgErr World} (w : World)
    (h : isOkE r = true) : r = .ok (stateOf r w) := by
  cases r with
  | ok w' => rfl
  | error e => simp [isOkE] at h

/-! The concrete execution used for claim C1: two bounties X (amount 1000,
one winner) and Y (amount 10, one winner) by different creators, one
submission recorded against Y, and X's creator selecting that submission
as a winner through bounty X with payout 1000 — the missing
`bounty_id` comparison in `process_select_winner` lets the payout recorded
on Y's submission exceed Y's locked amount. -/

/-- The empty start world for the C1 trace: nothing program-owned, wallets
funded, a unit rent schedule. -/
def w0C1 : World :=
  { progOwned := fun _ => false,
    bounties := fun _ => none,
    submissions := [],
    votes := fun _ => none,
    lamports := fun a => match a with | .user _ => 1000000000 | _ => 0,
    rentMin := fun _ => 1,
    dataLen := fun _ => 0,
    szBounty := 88, szVote := 105 }

/-- Bounty X's PDA (creator `user 0`, custom seed 0). -/
def bountyXC1 : Addr := .bountyCustom (.user 0) 0

/-- Bounty Y's PDA (creator `user 1`, custom seed 0). -/
def bountyYC1 : Addr := .bountyCustom (.user 1) 0

/-- The PDA of the submission recorded by `user 2` against bounty Y. -/
def subYC1 : Addr := .submissionOf bountyYC1 (.user 2) "s1"

/-- Creating bounty X with amount 1000, one winner. -/
def r1C1 : Except ProgErr World :=
  process_create_bounty w0C1 (.user 0) bountyXC1 (.vaultOf bountyXC1) .system
    1000 100 (some 0) (some 1) true 0

/-- The world after creating bounty X. -/
def w1C1 : World := stateOf r1C1 w0C1

/-- Creating bounty Y with amount 10, one winner. -/
def r2C1 : Except ProgErr World :=
  process_create_bounty w1C1 (.user 1) bountyYC1 (.vaultOf bountyYC1) .system
    10 100 (some 0) (some 1) true 0

/-- The world after creating bounty Y. -/
def w2C1 : World := stateOf r2C1 w1C1

/-- Recording submission "s1" against bounty Y. -/
def r3C1 : Except ProgErr World :=
  process_record_submission w2C1 (.user 2) bountyYC1 subYC1 .system "s1" 3
    "d" "h" true 0

/-- The world after recording the submission. -/
def w3C1 : World := stateOf r3C1 w2C1

/-- X's creator selecting Y's submission through bounty X, payout 1000. -/
def r4C1 : Except ProgErr World :=
  process_select_winner w3C1 (.user 0) bountyXC1 subYC1 "s1" 1000 true

/-- The final world of the C1 trace. -/
def w4C1 : World := stateOf r4C1 w3C1

/-- C1: the claim fails on the code.  `process_select_winner` never
compares the submission's `bounty_id` with the supplied bounty account, so
a state is reachable (by the four instructions of the C1 trace above, from
an empty world) in which bounty Y holds `amount = 10` while the winner
submissions referencing Y through `bounty_id` carry a recorded payout sum
of 1000: the sum of `payout_amount` over `is_winner` submissions of one
bounty exceeds that bounty's `amount`. -/
theorem c1_select_winner_cross_bounty_sum_violation :
    Reachable w0C1 w4C1 ∧
    (w4C1.bounties bountyYC1).map BountyAccount.amount = some 10 ∧
    winnerPayoutSum w4C1.submissions bountyYC1 = 1000 := by
  refine ⟨?_, by decide, by decide⟩
  have h1 : Step w0C1 w1C1 :=
    Step.create _ _ _ _ _ _ _ _ _ _ _ _ (ok_of_isOkE w0C1 (by decide))
  have h2 : Step w1C1 w2C1 :=
    Step.create _ _ _ _ _ _ _ _ _ _ _ _ (ok_of_isOkE w1C1 (by decide))
  have h3 : Step w2C1 w3C1 :=
    Step.record _ _ _ _ _ _ _ _ _ _ _ _ (ok_of_isOkE w2C1 (by decide))
  have h4 : Step w3C1 w4C1 :=
    Step.select _ _ _ _ _ _ _ _ (ok_of_isOkE w3C1 (by decide))
  exact Relation.ReflTransGen.head h1 (Relation.ReflTransGen.head h2
    (Relation.ReflTransGen.head h3 (Relation.ReflTransGen.single h4)))

/-! Claim C3: the terminal-state invariant against
`process_finalize_and_distribute`, which never inspects the status. -/

/-- The bounty address of the C3 failing input. -/
def bountyC3 : Addr := .bountyCustom (.user 5) 0

/-- The C3 failing input: a Cancelled (terminal) bounty whose deadline has
passed, with 7 lamports sitting in its vault (for example deposited there
externally after the cancel refund). -/
def wC3 : World :=
  { progOwned := fun a => decide (a = bountyC3 ∨ a = Addr.vaultOf bountyC3),
    bounties := fun a =>
      if a = bountyC3 then
        some { creator := .user 5, hunter := none, amount := 10, deadline := 5,
               status := .Cancelled, initialized := true, winners_count := 1,
               current_winners := 0 }
      else none,
    submissions := [], votes := fun _ => none,
    lamports := fun a =>
      if a = Addr.vaultOf bountyC3 then 7
      else if a = Addr.user 5 then 100 else 0,
    rentMin := fun _ => 1,
    dataLen := fun _ => 0,
    szBounty := 88, szVote := 105 }

/-- The creator calling finalize on the Cancelled bounty at time 10. -/
def rC3 : Except ProgErr World :=
  process_finalize_and_distribute wC3 (.user 5) bountyC3 (Addr.vaultOf bountyC3)
    .system true 10

/-- C3: the claim is right and the code violates it.
`process_finalize_and_distribute` has no status guard, so on a bounty
already in the terminal status Cancelled (with lamports in its vault and
the deadline passed) it succeeds, drains the vault to the creator and
overwrites the status with Claimed — a terminal bounty's economic fields
are mutated again. -/
theorem c3_finalize_mutates_terminal_bounty :
    (wC3.bounties bountyC3).map BountyAccount.status = some .Cancelled ∧
    isOkE rC3 = true ∧
    ((stateOf rC3 wC3).bounties bountyC3).map BountyAccount.status = some .Claimed ∧
    wC3.lamports (Addr.vaultOf bountyC3) = 7 ∧
    (stateOf rC3 wC3).lamports (Addr.vaultOf bountyC3) = 0 ∧
    (stateOf rC3 wC3).lamports (.user 5) = 107 := by
  decide

/-! Claim C2: what a vault-address mismatch actually fails with. -/

/-- The bounty address of the C2 counterexample. -/
def bountyC2 : Addr := .bountyCustom (.user 6) 0

/-- A program-owned account that is not the derived vault of `bountyC2`. -/
def wrongVaultC2 : Addr := .user 9

/-- The `BountyAccount` record of the C2 counterexample: Approved, with
`user 7` the approved hunter. -/
def bdC2 : BountyAccount :=
  { creator := .user 6, hunter := some (.user 7), amount := 10, deadline := 5,
    status := .Approved, initialized := true, winners_count := 1,
    current_winners := 1 }

/-- The C2 counterexample world: the hunter supplies `wrongVaultC2`, a
program-owned account holding 10 lamports, as the vault. -/
def wC2 : World :=
  { progOwned := fun a => decide (a = bountyC2 ∨ a = wrongVaultC2),
    bounties := fun a => if a = bountyC2 then some bdC2 else none,
    submissions := [], votes := fun _ => none,
    lamports := fun a => if a = wrongVaultC2 then 10 else 0,
    rentMin := fun _ => 1,
    dataLen := fun _ => 0,
    szBounty := 88, szVote := 105 }

/-- C2, counterexample: with every other precondition satisfied and a
vault address differing from the derived one, `process_claim_bounty`
fails with the native `ProgramError::InvalidAccountData`, not with the
`InvalidEscrowAccount` code the claim names (that code exists only in the
Anchor variant's error enum). -/
theorem c2_mismatch_error_is_invalid_account_data :
    process_claim_bounty wC2 (.user 7) bountyC2 wrongVaultC2 .system true =
      .error .InvalidAccountData ∧
    ProgErr.InvalidAccountData ≠ ProgErr.InvalidEscrowAccount := by
  exact ⟨rfl, by decide⟩

/-- C2, amended: for claim, cancel, emergency cancel and finalize, when
the preceding signer/ownership/state checks pass and the supplied vault
address differs from the one derived from the bounty's identity, the
operation fails (with `InvalidAccountData`) before any transfer, and — the
embedding returning no world on an error, as the runtime rolls back — with
no state change. -/
theorem c2_vault_mismatch_fails_closed :
    (∀ (w : World) (hunter ba va : Addr) (b : BountyAccount),
       w.progOwned ba = true → w.progOwned va = true →
       w.bounties ba = some b → b.initialized = true →
       b.status = .Approved → b.hunter = some hunter →
       va ≠ Addr.vaultOf ba →
       process_claim_bounty w hunter ba va .system true =
         .error .InvalidAccountData) ∧
    (∀ (w : World) (creator ba va : Addr) (b : BountyAccount) (now : Int),
       w.progOwned ba = true → w.progOwned va = true →
       w.bounties ba = some b → b.initialized = true →
       b.status = .Open → b.creator = creator → b.deadline < now →
       va ≠ Addr.vaultOf ba →
       process_cancel_bounty w creator ba va .system true now =
         .error .InvalidAccountData) ∧
    (∀ (w : World) (creator ba va : Addr) (b : BountyAccount),
       w.progOwned ba = true → w.progOwned va = true →
       w.bounties ba = some b → b.initialized = true →
       b.status = .Open → b.creator = creator →
       va ≠ Addr.vaultOf ba →
       process_cancel_bounty_emergency w creator ba va .system true =
         .error .InvalidAccountData) ∧
    (∀ (w : World) (creator ba va : Addr) (b : BountyAccount) (now : Int),
       w.bounties ba = some b → b.initialized = true → b.creator = creator →
       (b.deadline < now ∨ b.winners_count ≤ b.current_winners) →
       va ≠ Addr.vaultOf ba →
       process_finalize_and_distribute w creator ba va .system true now =
         .error .InvalidAccountData) := by
  refine ⟨?_, ?_, ?_, ?_⟩
  · intro w hunter ba va b hpb hpv hb hinit hst hh hva
    have hne : Addr.vaultOf ba ≠ va := fun he => hva he.symm
    simp [process_claim_bounty, hpb, hpv, hb, hinit, hst, hh, hne]
  · intro w creator ba va b now hpb hpv hb hinit hst hcr hdl hva
    have hne : Addr.vaultOf ba ≠ va := fun he => hva he.symm
    have hnd : ¬(now ≤ b.deadline) := by omega
    simp [process_cancel_bounty, hpb, hpv, hb, hinit, hst, hcr, hnd, hne]
  · intro w creator ba va b hpb hpv hb hinit hst hcr hva
    have hne : Addr.vaultOf ba ≠ va := fun he => hva he.symm
    simp [process_cancel_bounty_emergency, hpb, hpv, hb, hinit, hst, hcr, hne]
  · intro w creator ba va b now hb hinit hcr hcond hva
    have hne : Addr.vaultOf ba ≠ va := fun he => hva he.symm
    have hc2 : ¬(¬(b.deadline < now) ∧ ¬(b.winners_count ≤ b.current_winners)) := by
      tauto
    simp [process_finalize_and_distribute, hb, hinit, hcr, hc2, hne]
    intro h
    rcases hcond with h2 | h2
    · omega
    · exact h2

/-- The Open-status bounty record used by the C2 witness for the cancel,
emergency-cancel and finalize conjuncts. -/
def bdC2b : BountyAccount :=
  { creator := .user 6, hunter := none, amount := 10, deadline := 5,
    status := .Open, initialized := true, winners_count := 1,
    current_winners := 1 }

/-- The C2 witness world for the Open-status conjuncts. -/
def wC2b : World :=
  { progOwned := fun a => decide (a = bountyC2 ∨ a = wrongVaultC2),
    bounties := fun a => if a = bountyC2 then some bdC2b else none,
    submissions := [], votes := fun _ => none,
    lamports := fun a => if a = wrongVaultC2 then 10 else 0,
    rentMin := fun _ => 1,
    dataLen := fun _ => 0,
    szBounty := 88, szVote := 105 }

/-- Witness for C2: the four conclusions at concrete worlds where every
hypothesis holds. -/
theorem c2_vault_mismatch_fails_closed_witness :
    process_claim_bounty wC2 (.user 7) bountyC2 wrongVaultC2 .system true =
      .error .InvalidAccountData ∧
    process_cancel_bounty wC2b (.user 6) bountyC2 wrongVaultC2 .system true 10 =
      .error .InvalidAccountData ∧
    process_cancel_bounty_emergency wC2b (.user 6) bountyC2 wrongVaultC2 .system true =
      .error .InvalidAccountData ∧
    process_finalize_and_distribute wC2b (.user 6) bountyC2 wrongVaultC2 .system true 10 =
      .error .InvalidAccountData := by
  refine ⟨?_, ?_, ?_, ?_⟩
  · exact c2_vault_mismatch_fails_closed.1 wC2 (.user 7) bountyC2 wrongVaultC2 bdC2
      (by decide) (by decide) rfl rfl rfl rfl (by decide)
  · exact c2_vault_mismatch_fails_closed.2.1 wC2b (.user 6) bountyC2 wrongVaultC2 bdC2b
      10 (by decide) (by decide) rfl rfl rfl rfl (by decide) (by decide)
  · exact c2_vault_mismatch_fails_closed.2.2.1 wC2b (.user 6) bountyC2 wrongVaultC2
      bdC2b (by decide) (by decide) rfl rfl rfl rfl (by decide)
  · exact c2_vault_mismatch_fails_closed.2.2.2 wC2b (.user 6) bountyC2 wrongVaultC2
      bdC2b 10 rfl rfl rfl (Or.inl (by decide)) (by decide)

/-! Claim C7: creation-time validation, in both variants. -/

/-- The Anchor-variant world of the C7 counterexample: no bounty at the
PDA yet, the creator holding exactly the rent. -/
def awC7 : AWorld :=
  { creator := .user 0, bounty := none, creatorLamports := 1,
    escrowLamports := 0, rentBounty := 1 }

/-- C7, counterexample: the Anchor variant's `create_bounty` has no
deadline argument and validates nothing about `amount`; called with
`amount = 0` it succeeds and initializes a record with `amount = 0`
instead of failing with `InvalidBountyAmount`. -/
theorem c7_anchor_create_accepts_zero_amount :
    create_bounty awC7 0 7 5 =
      .ok { awC7 with
              bounty := some
                { creator := .user 0, auditor := none, amount := 0,
                  status := .Open, report_uri := none, created_at := 5,
                  nonce := 7, bump := 0 },
              creatorLamports := 0, escrowLamports := 0 } := by
  rfl

/-- C7, amended (the native variant): with the creator signing and the
system program supplied, `process_create_bounty` fails with
`InvalidBountyAmount` whenever `amount = 0`, and with `InvalidDeadline`
whenever `deadline ≤ now`; both failures happen before any account is
touched, so no funds move and no record is initialized. -/
theorem c7_native_create_validates_amount_and_deadline
    (w : World) (creator ba va : Addr) (amount : Nat) (deadline : Int)
    (cs wc : Option Nat) (now : Int) :
    (amount = 0 →
       process_create_bounty w creator ba va .system amount deadline cs wc true now =
         .error (.Custom .InvalidBountyAmount)) ∧
    (amount ≠ 0 → deadline ≤ now →
       process_create_bounty w creator ba va .system amount deadline cs wc true now =
         .error (.Custom .InvalidDeadline)) := by
  constructor
  · intro h
    simp [process_create_bounty, h]
  · intro h1 h2
    simp [process_create_bounty, h1, h2]

/-- Witness for C7's amended theorem: both validation failures at concrete
inputs. -/
theorem c7_native_create_validates_witness :
    process_create_bounty wC2 (.user 0) (.user 1) (.user 2) .system 0 9 none none true 3 =
      .error (.Custom .InvalidBountyAmount) ∧
    process_create_bounty wC2 (.user 0) (.user 1) (.user 2) .system 5 2 none none true 3 =
      .error (.Custom .InvalidDeadline) := by
  constructor
  · exact (c7_native_create_validates_amount_and_deadline wC2 (.user 0) (.user 1)
      (.user 2) 0 9 none none 3).1 rfl
  · exact (c7_native_create_validates_amount_and_deadline wC2 (.user 0) (.user 1)
      (.user 2) 5 2 none none 3).2 (by decide) (by decide)

/-! Claim C8: the 100-byte bound on the content/report reference. -/

/-- The bounty address of the C8 counterexample. -/
def bountyC8 : Addr := .bountyCustom (.user 3) 0

/-- A pre-existing account the caller supplies as the submission account:
a zeroed 10000-byte account owned by the program.  Anyone can create such
an account (the system program's create_account assigns any owner and any
size to a fresh keypair account, zero-filled); the program never wrote it,
so it parses as uninitialized. -/
def preC8 : Addr := .user 11

/-- The C8 counterexample world: an Open bounty, a funded hunter, and the
pre-created 10000-byte program-owned account `preC8`. -/
def wC8 : World :=
  { progOwned := fun a => decide (a = bountyC8 ∨ a = preC8),
    bounties := fun a =>
      if a = bountyC8 then
        some { creator := .user 3, hunter := none, amount := 100, deadline := 100,
               status := .Open, initialized := true, winners_count := 1,
               current_winners := 0 }
      else none,
    submissions := [], votes := fun _ => none,
    lamports := fun a => match a with | .user _ => 1000 | _ => 0,
    dataLen := fun a => if a = preC8 then 10000 else 0,
    rentMin := fun _ => 1,
    szBounty := 88, szVote := 105 }

/-- A content reference of 101 bytes. -/
def longRefC8 : String := String.mk (List.replicate 101 'a')

/-- The submission PDA for hunter `user 4` and id "s" under `bountyC8`. -/
def subC8 : Addr := .submissionOf bountyC8 (.user 4) "s"

/-- Recording a submission whose `ipfs_hash` reference is 101 bytes
through the pre-existing 10000-byte account. -/
def rC8 : Except ProgErr World :=
  process_record_submission wC8 (.user 4) bountyC8 preC8 .system "s" 3 "d"
    longRefC8 true 0

/-- C8, counterexample: the native `process_record_submission` has no
100-byte bound of its own.  On the account-already-exists path
(owner == program) it checks neither the derived address nor the size of
the supplied account, so through a pre-created 10000-byte program-owned
account a 101-byte reference is accepted and stored verbatim — the
207-byte record fits that buffer — refuting the claim that every write
rejects references over 100 bytes. -/
theorem c8_preexisting_account_stores_oversized_reference :
    isOkE rC8 = true ∧
    (findSub (stateOf rC8 wC8).submissions preC8).map
        (fun s => s.ipfs_hash.utf8ByteSize) = some 101 ∧
    100 < 101 := by
  decide

/-- C8, amended: the Anchor variant's `submit_report` enforces the fixed
100-byte cap at write time, rejecting a longer reference with
`ReportLinkTooLong` and storing nothing, and storing a reference within
the bound.  The native `process_record_submission` has no explicit check;
when the submission account is allocated by the program itself (184 bytes,
`size_of::<Submission>()`), serializing a record whose reference exceeds
100 bytes overflows the buffer, so with every other guard satisfied the
instruction fails with the serialization error and nothing is stored.  A
caller-supplied pre-existing larger account escapes the bound (see the
counterexample). -/
theorem c8_reference_bound_enforcement :
    (∀ (b : ABounty) (aud : Addr) (uri : String),
       b.status = .Open → b.auditor = none →
       (MAX_REPORT_URI_SIZE < uri.utf8ByteSize →
          submit_report b aud uri = .error .ReportLinkTooLong) ∧
       (uri.utf8ByteSize ≤ MAX_REPORT_URI_SIZE →
          submit_report b aud uri =
            .ok { b with auditor := some aud, report_uri := some uri,
                         status := .Submitted })) ∧
    (∀ (w : World) (hunter ba sa : Addr) (sid : String) (sev : Nat)
       (descr ipfs : String) (now : Int) (b : BountyAccount),
       w.progOwned ba = true → w.bounties ba = some b →
       b.initialized = true → b.status = .Open →
       1 ≤ sev → sev ≤ 5 →
       w.progOwned sa = false → Addr.submissionOf ba hunter sid = sa →
       w.lamports sa = 0 → w.rentMin submissionMemSize ≤ w.lamports hunter →
       100 < ipfs.utf8ByteSize →
       process_record_submission w hunter ba sa .system sid sev descr ipfs
           true now = .error .BorshIoError) := by
  constructor
  · intro b aud uri hst hau
    constructor
    · intro h
      simp [submit_report, hst, hau, h]
    · intro h
      have h2 : ¬(MAX_REPORT_URI_SIZE < uri.utf8ByteSize) := by omega
      simp [submit_report, hst, hau, h2]
  · intro w hunter ba sa sid sev descr ipfs now b hpo hb hinit hst hs1 hs5
      hsa hpda hl0 hlr hlen
    have hsev : ¬(sev = 0 ∨ 5 < sev) := by omega
    have hnl0 : ¬(w.lamports sa ≠ 0) := by simp [hl0]
    have hnlr : ¬(w.lamports hunter < w.rentMin 184) := by
      simp only [submissionMemSize] at hlr
      omega
    simp [process_record_submission, hpo, hb, hinit, hst, hsev, hsa, hpda,
      hnl0, hnlr, updF, submissionBorshSize, submissionMemSize]
    omega

/-- The Anchor bounty of the C8 witness. -/
def abC8 : ABounty :=
  { creator := .user 0, auditor := none, amount := 5, status := .Open,
    report_uri := none, created_at := 0, nonce := 0, bump := 0 }

/-- Witness for C8's amended theorem: the Anchor cap rejecting a 101-byte
reference and admitting a 1-byte one, and the native program-allocated
path rejecting the 101-byte reference with the serialization error, all
at concrete inputs. -/
theorem c8_reference_bound_enforcement_witness :
    submit_report abC8 (.user 1) longRefC8 = .error .ReportLinkTooLong ∧
    submit_report abC8 (.user 1) "x" =
      .ok { abC8 with auditor := some (.user 1), report_uri := some "x",
                      status := .Submitted } ∧
    process_record_submission wC8 (.user 4) bountyC8 subC8 .system "s" 3 "d"
      longRefC8 true 0 = .error .BorshIoError := by
  refine ⟨?_, ?_, ?_⟩
  · exact (c8_reference_bound_enforcement.1 abC8 (.user 1) longRefC8 rfl rfl).1
      (by decide)
  · exact (c8_reference_bound_enforcement.1 abC8 (.user 1) "x" rfl rfl).2
      (by decide)
  · exact c8_reference_bound_enforcement.2 wC8 (.user 4) bountyC8 subC8 "s" 3 "d"
      longRefC8 0
      { creator := .user 3, hunter := none, amount := 100, deadline := 100,
        status := .Open, initialized := true, winners_count := 1,
        current_winners := 0 }
      (by decide) rfl rfl rfl (by decide) (by decide) (by decide) rfl
      (by decide) (by decide) (by decide)

/-! Claim C5: deadline monotonicity of the non-emergency cancel. -/

/-- C5: holding the rest of the state fixed — creator signing, the bounty
initialized, Open and owned by the program, the correct (derived) vault
account owned by the program and covering `amount` — `process_cancel_bounty`
fails with `DeadlineNotPassed` for every `now ≤ deadline` and succeeds for
every `now > deadline`, refunding `amount` to the creator and setting the
status to Cancelled. -/
theorem c5_cancel_deadline_monotonic
    (w : World) (creator ba : Addr) (b : BountyAccount) (now : Int)
    (hpb : w.progOwned ba = true) (hpv : w.progOwned (Addr.vaultOf ba) = true)
    (hb : w.bounties ba = some b) (hinit : b.initialized = true)
    (hst : b.status = .Open) (hcr : b.creator = creator)
    (hbal : b.amount ≤ w.lamports (Addr.vaultOf ba))
    (hcv : creator ≠ Addr.vaultOf ba) :
    (now ≤ b.deadline →
       process_cancel_bounty w creator ba (Addr.vaultOf ba) .system true now =
         .error (.Custom .DeadlineNotPassed)) ∧
    (b.deadline < now →
       ∃ w', process_cancel_bounty w creator ba (Addr.vaultOf ba) .system true now =
               .ok w' ∧
         w'.bounties ba = some { b with status := .Cancelled } ∧
         w'.lamports creator = w.lamports creator + b.amount ∧
         w'.lamports (Addr.vaultOf ba) = w.lamports (Addr.vaultOf ba) - b.amount) := by
  constructor
  · intro h
    simp [process_cancel_bounty, hpb, hpv, hb, hinit, hst, hcr, h]
  · intro h
    have hnd : ¬(now ≤ b.deadline) := by omega
    have hnb : ¬(w.lamports (Addr.vaultOf ba) < b.amount) := by omega
    refine ⟨{ w with
                lamports := xfer w.lamports (Addr.vaultOf ba) creator b.amount,
                bounties := updF w.bounties ba (some { b with status := .Cancelled }) },
            ?_, ?_, ?_, ?_⟩
    · simp [process_cancel_bounty, hpb, hpv, hb, hinit, hst, hcr, hnd, hnb]
    · simp [updF]
    · simp [xfer, updF, hcv]
    · simp [xfer, updF, Ne.symm hcv]

/-- The bounty address of the C5/C6 witness world. -/
def bountyC5addr : Addr := .bountyCustom (.user 8) 0

/-- The bounty record of the C5/C6 witness world. -/
def bdC5 : BountyAccount :=
  { creator := .user 8, hunter := none, amount := 10, deadline := 5,
    status := .Open, initialized := true, winners_count := 1,
    current_winners := 0 }

/-- The C5/C6 witness world: an Open bounty, its derived vault holding
exactly the locked amount, the creator funded. -/
def wC5 : World :=
  { progOwned := fun a => decide (a = bountyC5addr ∨ a = Addr.vaultOf bountyC5addr),
    bounties := fun a => if a = bountyC5addr then some bdC5 else none,
    submissions := [], votes := fun _ => none,
    lamports := fun a =>
      if a = Addr.vaultOf bountyC5addr then 10
      else if a = Addr.user 8 then 50 else 0,
    rentMin := fun _ => 1,
    dataLen := fun _ => 0,
    szBounty := 88, szVote := 105 }

/-- Witness for C5: at the concrete world `wC5`, cancel at time 3 fails
with `DeadlineNotPassed` and cancel at time 10 refunds 10 lamports to the
creator and cancels. -/
theorem c5_cancel_deadline_monotonic_witness :
    process_cancel_bounty wC5 (.user 8) bountyC5addr (Addr.vaultOf bountyC5addr)
        .system true 3 = .error (.Custom .DeadlineNotPassed) ∧
    (∃ w', process_cancel_bounty wC5 (.user 8) bountyC5addr
             (Addr.vaultOf bountyC5addr) .system true 10 = .ok w' ∧
       w'.bounties bountyC5addr = some { bdC5 with status := .Cancelled } ∧
       w'.lamports (.user 8) = 60 ∧
       w'.lamports (Addr.vaultOf bountyC5addr) = 0) := by
  constructor
  · exact (c5_cancel_deadline_monotonic wC5 (.user 8) bountyC5addr bdC5 3
      (by decide) (by decide) rfl rfl rfl rfl (by decide) (by decide)).1 (by decide)
  · exact (c5_cancel_deadline_monotonic wC5 (.user 8) bountyC5addr bdC5 10
      (by decide) (by decide) rfl rfl rfl rfl (by decide) (by decide)).2 (by decide)

/-! Claim C6: the finalize-and-distribute contract. -/

/-- C6: `process_finalize_and_distribute` (i) never succeeds for a caller
who is not the bounty's creator and (ii) never succeeds unsigned; (iii)
with the creator signing, it fails with the argument error when both
`now ≤ deadline` and `current_winners < winners_count`; (iv) it fails
with the insufficient-funds error when the vault balance is zero; (v)
otherwise it drains the vault's entire balance to the creator and sets
the status to Claimed. -/
theorem c6_finalize_and_distribute_spec :
    (∀ (w : World) (creator ba va sp : Addr) (sg : Bool) (now : Int)
       (b : BountyAccount),
       w.bounties ba = some b → b.creator ≠ creator →
       isOkE (process_finalize_and_distribute w creator ba va sp sg now) = false) ∧
    (∀ (w : World) (creator ba va sp : Addr) (now : Int),
       isOkE (process_finalize_and_distribute w creator ba va sp false now) = false) ∧
    (∀ (w : World) (creator ba va : Addr) (b : BountyAccount) (now : Int),
       w.bounties ba = some b → b.initialized = true → b.creator = creator →
       now ≤ b.deadline → b.current_winners < b.winners_count →
       process_finalize_and_distribute w creator ba va .system true now =
         .error .InvalidArgument) ∧
    (∀ (w : World) (creator ba : Addr) (b : BountyAccount) (now : Int),
       w.bounties ba = some b → b.initialized = true → b.creator = creator →
       (b.deadline < now ∨ b.winners_count ≤ b.current_winners) →
       w.lamports (Addr.vaultOf ba) = 0 →
       process_finalize_and_distribute w creator ba (Addr.vaultOf ba) .system true now =
         .error .InsufficientFunds) ∧
    (∀ (w : World) (creator ba : Addr) (b : BountyAccount) (now : Int),
       w.bounties ba = some b → b.initialized = true → b.creator = creator →
       (b.deadline < now ∨ b.winners_count ≤ b.current_winners) →
       0 < w.lamports (Addr.vaultOf ba) → creator ≠ Addr.vaultOf ba →
       ∃ w', process_finalize_and_distribute w creator ba (Addr.vaultOf ba)
               .system true now = .ok w' ∧
         w'.bounties ba = some { b with status := .Claimed } ∧
         w'.lamports creator = w.lamports creator + w.lamports (Addr.vaultOf ba) ∧
         w'.lamports (Addr.vaultOf ba) = 0) := by
  refine ⟨?_, ?_, ?_, ?_, ?_⟩
  · intro w creator ba va sp sg now b hb hcr
    cases sg
    · rfl
    · by_cases hsp : sp = Addr.system
      · subst hsp
        cases hi : b.initialized
        · simp [process_finalize_and_distribute, hb, hi, isOkE]
        · simp [process_finalize_and_distribute, hb, hi, hcr, isOkE]
      · simp [process_finalize_and_distribute, hb, hsp, isOkE]
  · intro w creator ba va sp now
    rfl
  · intro w creator ba va b now hb hinit hcr hnd hcw
    have hd : ¬(b.deadline < now) := by omega
    have hw : ¬(b.winners_count ≤ b.current_winners) := by omega
    simp [process_finalize_and_distribute, hb, hinit, hcr, hd, hw]
  · intro w creator ba b now hb hinit hcr hcond hvz
    have hc2 : ¬(¬(b.deadline < now) ∧ ¬(b.winners_count ≤ b.current_winners)) := by
      tauto
    simp [process_finalize_and_distribute, hb, hinit, hcr, hc2, hvz]
    intro h
    rcases hcond with h2 | h2
    · omega
    · exact h2
  · intro w creator ba b now hb hinit hcr hcond hvp hcv
    have hc2 : ¬(¬(b.deadline < now) ∧ ¬(b.winners_count ≤ b.current_winners)) := by
      tauto
    have hne0 : ¬(w.lamports (Addr.vaultOf ba) = 0) := by omega
    refine ⟨{ w with
                lamports := xfer w.lamports (Addr.vaultOf ba) creator
                  (w.lamports (Addr.vaultOf ba)),
                bounties := updF w.bounties ba (some { b with status := .Claimed }) },
            ?_, ?_, ?_, ?_⟩
    · simp [process_finalize_and_distribute, hb, hinit, hcr, hc2, hne0]
      intro h
      rcases hcond with h2 | h2
      · omega
      · exact h2
    · simp [updF]
    · simp [xfer, updF, hcv]
    · simp [xfer, updF, Ne.symm hcv]

/-- Witness for C6: all five conclusions at concrete inputs (`wC5` with a
funded vault, `wC2b` with an empty one). -/
theorem c6_finalize_and_distribute_spec_witness :
    isOkE (process_finalize_and_distribute wC5 (.user 9) bountyC5addr (.user 0)
      .system true 0) = false ∧
    isOkE (process_finalize_and_distribute wC5 (.user 8) bountyC5addr (.user 0)
      .system false 0) = false ∧
    process_finalize_and_distribute wC5 (.user 8) bountyC5addr (.user 0)
      .system true 3 = .error .InvalidArgument ∧
    process_finalize_and_distribute wC2b (.user 6) bountyC2
      (Addr.vaultOf bountyC2) .system true 10 = .error .InsufficientFunds ∧
    (∃ w', process_finalize_and_distribute wC5 (.user 8) bountyC5addr
             (Addr.vaultOf bountyC5addr) .system true 10 = .ok w' ∧
       w'.bounties bountyC5addr = some { bdC5 with status := .Claimed } ∧
       w'.lamports (.user 8) = 60 ∧
       w'.lamports (Addr.vaultOf bountyC5addr) = 0) := by
  refine ⟨?_, ?_, ?_, ?_, ?_⟩
  · exact c6_finalize_and_distribute_spec.1 wC5 (.user 9) bountyC5addr (.user 0)
      .system true 0 bdC5 rfl (by decide)
  · exact c6_finalize_and_distribute_spec.2.1 wC5 (.user 8) bountyC5addr (.user 0)
      .system 0
  · exact c6_finalize_and_distribute_spec.2.2.1 wC5 (.user 8) bountyC5addr (.user 0)
      bdC5 3 rfl rfl rfl (by decide) (by decide)
  · exact c6_finalize_and_distribute_spec.2.2.2.1 wC2b (.user 6) bountyC2 bdC2b 10
      rfl rfl rfl (Or.inl (by decide)) (by decide)
  · exact c6_finalize_and_distribute_spec.2.2.2.2 wC5 (.user 8) bountyC5addr bdC5 10
      rfl rfl rfl (Or.inl (by decide)) (by decide) (by decide)

/-! Claim C9: the per-winner cap division can never divide by zero. -/

/-- C9: in `process_select_winner`, (i) a bounty with `winners_count = 0`
never admits a successful call — the quota guard
`current_winners >= winners_count` holds vacuously and aborts first; (ii)
when the guards before it pass, the failure is exactly the quota error
`InvalidArgument`; (iii) every successful call implies
`winners_count ≥ 1`, so the division `amount / winners_count` is only
ever reached with a positive divisor. -/
theorem c9_select_winner_division_guarded :
    (∀ (w : World) (creator ba sa : Addr) (sid : String) (payout : Nat)
       (sg : Bool) (b : BountyAccount),
       w.bounties ba = some b → b.winners_count = 0 →
       isOkE (process_select_winner w creator ba sa sid payout sg) = false) ∧
    (∀ (w : World) (creator ba sa : Addr) (sid : String) (payout : Nat)
       (b : BountyAccount),
       w.bounties ba = some b → b.initialized = true → b.status = .Open →
       b.creator = creator → b.winners_count = 0 →
       process_select_winner w creator ba sa sid payout true =
         .error .InvalidArgument) ∧
    (∀ (w : World) (creator ba sa : Addr) (sid : String) (payout : Nat)
       (sg : Bool) (w' : World) (b : BountyAccount),
       process_select_winner w creator ba sa sid payout sg = .ok w' →
       w.bounties ba = some b → 1 ≤ b.winners_count) := by
  refine ⟨?_, ?_, ?_⟩
  · intro w creator ba sa sid payout sg b hb hwc
    cases sg
    · rfl
    · cases hi : b.initialized
      · simp [process_select_winner, hb, hi, isOkE]
      · by_cases hst : b.status = BountyStatus.Open
        · by_cases hcr : b.creator = creator
          · simp [process_select_winner, hb, hi, hst, hcr, hwc, isOkE]
          · simp [process_select_winner, hb, hi, hst, hcr, isOkE]
        · simp [process_select_winner, hb, hi, hst, isOkE]
  · intro w creator ba sa sid payout b hb hinit hst hcr hwc
    simp [process_select_winner, hb, hinit, hst, hcr, hwc]
  · intro w creator ba sa sid payout sg w' b h hb
    by_cases hq : b.winners_count ≤ b.current_winners
    · exfalso
      cases sg
      · simp [process_select_winner] at h
      · cases hi : b.initialized
        · simp [process_select_winner, hb, hi] at h
        · by_cases hst : b.status = BountyStatus.Open
          · by_cases hcr : b.creator = creator
            · simp [process_select_winner, hb, hi, hst, hcr, hq] at h
            · simp [process_select_winner, hb, hi, hst, hcr] at h
          · simp [process_select_winner, hb, hi, hst] at h
    · omega

/-- The bounty record of the C9 witness: `winners_count = 0`. -/
def bdC9 : BountyAccount :=
  { creator := .user 10, hunter := none, amount := 50, deadline := 5,
    status := .Open, initialized := true, winners_count := 0,
    current_winners := 0 }

/-- The bounty address of the C9 witness. -/
def bountyC9 : Addr := .bountyCustom (.user 10) 0

/-- The C9 witness world. -/
def wC9 : World :=
  { progOwned := fun a => decide (a = bountyC9),
    bounties := fun a => if a = bountyC9 then some bdC9 else none,
    submissions := [], votes := fun _ => none,
    lamports := fun _ => 0,
    rentMin := fun _ => 1,
    dataLen := fun _ => 0,
    szBounty := 88, szVote := 105 }

/-- The record bounty X holds in the C1 trace world `w3C1`, used by the
C9 witness as a concrete successful `select_winner` call. -/
def bdXC1 : BountyAccount :=
  { creator := .user 0, hunter := none, amount := 1000, deadline := 100,
    status := .Open, initialized := true, winners_count := 1,
    current_winners := 0 }

/-- Witness for C9: the three conclusions at concrete inputs — the
`winners_count = 0` bounty never selects and fails with
`InvalidArgument`, and the successful selection of the C1 trace has
`winners_count = 1 ≥ 1`. -/
theorem c9_select_winner_division_guarded_witness :
    isOkE (process_select_winner wC9 (.user 10) bountyC9 (.user 0) "s" 5 true)
      = false ∧
    process_select_winner wC9 (.user 10) bountyC9 (.user 0) "s" 5 true =
      .error .InvalidArgument ∧
    (1 : Nat) ≤ 1 := by
  refine ⟨?_, ?_, ?_⟩
  · exact c9_select_winner_division_guarded.1 wC9 (.user 10) bountyC9 (.user 0)
      "s" 5 true bdC9 rfl rfl
  · exact c9_select_winner_division_guarded.2.1 wC9 (.user 10) bountyC9 (.user 0)
      "s" 5 bdC9 rfl rfl rfl rfl rfl
  · exact c9_select_winner_division_guarded.2.2 w3C1 (.user 0) bountyXC1 subYC1
      "s1" 1000 true w4C1 bdXC1 (ok_of_isOkE w3C1 (by decide)) (by decide)

/-! Claim C10: `process_submit_work` mutates nothing. -/

/-- C10: whatever the input world, accounts, URL or signer flag, the state
`process_submit_work` leaves behind is the input state: it validates and
logs, succeeding with the world unchanged or failing (and the runtime's
rollback preserves the world on failure, which `stateOf` encodes). -/
theorem c10_submit_work_mutates_nothing (w : World) (h ba : Addr)
    (url : String) (sg : Bool) :
    stateOf (process_submit_work w h ba url sg) w = w := by
  simp only [process_submit_work]
  repeat' split
  all_goals rfl

/-! Claim C4: revoting retracts the previous vote before applying the new
one. -/

theorem applyVote_id (s : Submission) (t : VoteType) :
    (applyVote s t).id = s.id := by
  cases t <;> rfl

/-- A first vote through the derived vote PDA: the account is created
(rent paid by the voter), the vote stored, and the counter matching the
cast vote incremented with no retract. -/
theorem vote_fresh_ok
    (w : World) (voter ba sa : Addr) (sid : String) (A : Bool)
    (b : BountyAccount) (s : Submission) (now : Int)
    (hb : w.bounties ba = some b) (hinit : b.initialized = true)
    (hst : b.status = .Open) (hsa : w.progOwned sa = true)
    (hs : findSub w.submissions sa = some s) (hid : s.id = sid)
    (hid0 : sid ≠ "") (hva : w.progOwned (Addr.voteOf sa voter) = false)
    (hvl : w.lamports (Addr.voteOf sa voter) = 0)
    (hrent : w.rentMin w.szVote ≤ w.lamports voter) :
    process_vote_on_submission w voter ba sa (Addr.voteOf sa voter) .system
        sid A true now =
      .ok { w with
              lamports := xfer w.lamports voter (Addr.voteOf sa voter)
                (w.rentMin w.szVote),
              progOwned := updF w.progOwned (Addr.voteOf sa voter) true,
              votes := updF w.votes (Addr.voteOf sa voter) (some
                { voter := voter, submission := sa, bounty := ba,
                  vote_type := if A then .Up else .Down, timestamp := now }),
              submissions := setSub w.submissions sa
                (applyVote s (if A then .Up else .Down)) } := by
  have hrent2 : ¬(w.lamports voter < w.rentMin w.szVote) := by omega
  simp [process_vote_on_submission, hb, hinit, hst, hsa, hs, hid, hid0, hva,
    hvl, hrent2, retractVote]

/-- A repeat vote through an existing vote account: the stored vote is
overwritten and the counters see the retract-then-apply update. -/
theorem vote_existing_ok
    (w : World) (voter ba sa va : Addr) (sid : String) (B : Bool)
    (b : BountyAccount) (s : Submission) (vd : Vote) (now : Int)
    (hb : w.bounties ba = some b) (hinit : b.initialized = true)
    (hst : b.status = .Open) (hsa : w.progOwned sa = true)
    (hs : findSub w.submissions sa = some s) (hid : s.id = sid)
    (hid0 : sid ≠ "") (hva : w.progOwned va = true)
    (hv : w.votes va = some vd) :
    process_vote_on_submission w voter ba sa va .system sid B true now =
      .ok { w with
              votes := updF w.votes va (some
                { vd with vote_type := if B then .Up else .Down,
                          timestamp := now }),
              submissions := setSub w.submissions sa
                (applyVote (retractVote s vd.vote_type)
                  (if B then .Up else .Down)) } := by
  simp [process_vote_on_submission, hb, hinit, hst, hsa, hs, hid, hid0, hva, hv]

/-- C4: the claim holds.  From a state with no prior vote record for this
voter and submission and counters below the u64 wrap (the claim's
"consistent counters"), casting vote `A` and then vote `B` both succeed;
if `B = A` the second call leaves both counters exactly as after the
first, and if `B ≠ A` the second call preserves `upvotes + downvotes` as
of after the first call and leaves the counters showing exactly `B`'s
effect on the original state. -/
theorem c4_revote_retracts_then_applies
    (w : World) (voter ba sa : Addr) (sid : String) (A B : Bool)
    (b : BountyAccount) (s : Submission) (now1 now2 : Int)
    (hb : w.bounties ba = some b) (hinit : b.initialized = true)
    (hst : b.status = .Open) (hsa : w.progOwned sa = true)
    (hs : findSub w.submissions sa = some s) (hid : s.id = sid)
    (hid0 : sid ≠ "") (hva : w.progOwned (Addr.voteOf sa voter) = false)
    (hvl : w.lamports (Addr.voteOf sa voter) = 0)
    (hrent : w.rentMin w.szVote ≤ w.lamports voter)
    (hu : s.upvotes + 1 < U64MOD) (hd : s.downvotes + 1 < U64MOD) :
    ∃ w1 s1 w2 s2,
      process_vote_on_submission w voter ba sa (Addr.voteOf sa voter) .system
          sid A true now1 = .ok w1 ∧
      findSub w1.submissions sa = some s1 ∧
      process_vote_on_submission w1 voter ba sa (Addr.voteOf sa voter) .system
          sid B true now2 = .ok w2 ∧
      findSub w2.submissions sa = some s2 ∧
      (A = B → s2.upvotes = s1.upvotes ∧ s2.downvotes = s1.downvotes) ∧
      (A ≠ B → s2.upvotes + s2.downvotes = s1.upvotes + s1.downvotes ∧
               s2.upvotes = s.upvotes + (if B then 1 else 0) ∧
               s2.downvotes = s.downvotes + (if B then 0 else 1)) := by
  have hne : sa ≠ Addr.voteOf sa voter :=
    fun he => voteOf_ne_submission sa voter he.symm
  have h1 := vote_fresh_ok w voter ba sa sid A b s now1 hb hinit hst hsa hs
    hid hid0 hva hvl hrent
  have h2 := vote_existing_ok
    { w with
        lamports := xfer w.lamports voter (Addr.voteOf sa voter)
          (w.rentMin w.szVote),
        progOwned := updF w.progOwned (Addr.voteOf sa voter) true,
        votes := updF w.votes (Addr.voteOf sa voter) (some
          { voter := voter, submission := sa, bounty := ba,
            vote_type := if A then .Up else .Down, timestamp := now1 }),
        submissions := setSub w.submissions sa
          (applyVote s (if A then .Up else .Down)) }
    voter ba sa (Addr.voteOf sa voter) sid B b
    (applyVote s (if A then .Up else .Down))
    { voter := voter, submission := sa, bounty := ba,
      vote_type := if A then .Up else .Down, timestamp := now1 } now2
    hb hinit hst ((updF_other _ _ _ _ hne).trans hsa)
    (findSub_setSub_same _ _ _) ((applyVote_id _ _).trans hid) hid0
    (updF_same _ _ _) (updF_same _ _ _)
  refine ⟨_, applyVote s (if A then .Up else .Down), _, _, h1,
    findSub_setSub_same _ _ _, h2, findSub_setSub_same _ _ _, ?_, ?_⟩
  · intro hAB
    cases A <;> cases B <;>
      simp_all [applyVote, retractVote, Nat.mod_eq_of_lt hu, Nat.mod_eq_of_lt hd]
  · intro hAB
    cases A <;> cases B <;>
      simp_all [applyVote, retractVote, Nat.mod_eq_of_lt hu, Nat.mod_eq_of_lt hd] <;>
      omega

/-- The record bounty Y holds in the C1 trace world `w3C1`. -/
def bdYC1 : BountyAccount :=
  { creator := .user 1, hunter := none, amount := 10, deadline := 100,
    status := .Open, initialized := true, winners_count := 1,
    current_winners := 0 }

/-- The submission record stored at `subYC1` in the C1 trace world `w3C1`. -/
def sRecC1 : Submission :=
  { id := "s1", bounty_id := bountyYC1, auditor := .user 2, description := "d",
    ipfs_hash := "h", severity := 3, upvotes := 0, downvotes := 0,
    status := .Pending, payout_amount := none, is_winner := false,
    created_at := 0 }

/-- Witness for C4: voter `user 3` upvotes then downvotes the recorded
submission of the C1 trace world; both calls succeed with the claimed
counter behaviour. -/
theorem c4_revote_retracts_then_applies_witness :
    ∃ w1 s1 w2 s2,
      process_vote_on_submission w3C1 (.user 3) bountyYC1 subYC1
          (Addr.voteOf subYC1 (.user 3)) .system "s1" true true 1 = .ok w1 ∧
      findSub w1.submissions subYC1 = some s1 ∧
      process_vote_on_submission w1 (.user 3) bountyYC1 subYC1
          (Addr.voteOf subYC1 (.user 3)) .system "s1" false true 2 = .ok w2 ∧
      findSub w2.submissions subYC1 = some s2 ∧
      (true = false → s2.upvotes = s1.upvotes ∧ s2.downvotes = s1.downvotes) ∧
      (true ≠ false →
         s2.upvotes + s2.downvotes = s1.upvotes + s1.downvotes ∧
         s2.upvotes = sRecC1.upvotes + (if false then 1 else 0) ∧
         s2.downvotes = sRecC1.downvotes + (if false then 0 else 1)) :=
  c4_revote_retracts_then_applies w3C1 (.user 3) bountyYC1 subYC1 "s1"
    true false bdYC1 sRecC1 1 2 (by decide) rfl rfl (by decide) (by decide)
    rfl (by decide) (by decide) (by decide) (by decide) (by decide) (by decide)

end AuditBounty
